import Mathlib

/-!
Shallow embedding of the sdcX OR-table demo provider
(`src/libs/ORTableProvider/main.cpp`).

The provider manages a global `VirtualORTable` holding four continuous
axes (height, trend, tilt, backplate) and a selected predefined
position; operation handlers mutate it and a `ValueUpdater` background
thread periodically publishes values and evaluates alarm thresholds.
Axis values (C++ `double` with exact decimal constants and exact
comparisons) are embedded as rationals.

Parts of the repository are training stubs whose bodies are `TODO`
comments; where a claim depends on such a missing body, the
corresponding definition is modelled from the specification and says so
in its doc comment.  Everything else is translated from the source.
-/

namespace ORTable

/-- `enum class PredefinedPosition` (main.cpp:56-60). -/
inductive PredefinedPosition
  | NullLevel
  | BeachChair
deriving DecidableEq

/-- `struct VirtualORTable` (main.cpp:62-69): four axes and the selected
predefined position.  Ranges per the member comments: height 60-140 cm,
trend -45..45, tilt -25..25, backplate -40..80 degrees. -/
structure VirtualORTable where
  height : ℚ
  trend : ℚ
  tilt : ℚ
  backplate : ℚ
  predefinedPosition : PredefinedPosition
deriving DecidableEq

/-- The global `VirtualORTable virtualTable;` (main.cpp:72).  The struct
gives default member initializers only to `height` (80) and `trend`
(39.8); `tilt`, `backplate` and `predefinedPosition` have none, and
since the object has static storage duration, zero-initialization gives
them 0, 0 and the first enumerator (`NullLevel`). -/
def virtualTable : VirtualORTable :=
  { height := 80, trend := 39.8, tilt := 0, backplate := 0,
    predefinedPosition := PredefinedPosition.NullLevel }

/-- All axis values inside their declared closed ranges
(member comments of `VirtualORTable`, main.cpp:64-67). -/
def tableInRange (t : VirtualORTable) : Prop :=
  60 ≤ t.height ∧ t.height ≤ 140
    ∧ -45 ≤ t.trend ∧ t.trend ≤ 45
    ∧ -25 ≤ t.tilt ∧ t.tilt ≤ 25
    ∧ -40 ≤ t.backplate ∧ t.backplate ≤ 80

instance (t : VirtualORTable) : Decidable (tableInRange t) := by
  unfold tableInRange; infer_instance

/-- Clamp a value into the closed interval [lo, hi]. -/
def clamp (lo hi x : ℚ) : ℚ := max lo (min hi x)

/-- The activate operations offered by the table: one increase and one
decrease per axis, plus applying the selected predefined position
(doc comment of main.cpp and the `TODO` of
`ORTableActivateHandler::onNewTransaction`, main.cpp:111-119). -/
inductive ActivateOp
  | heightUp
  | heightDown
  | trendUp
  | trendDown
  | tiltUp
  | tiltDown
  | backplateUp
  | backplateDown
  | applyPredefinedPosition
deriving DecidableEq

/-- Modelled from the spec: the body of
`ORTableActivateHandler::onNewTransaction` (main.cpp:101-121) is a
`TODO` stub.  Per the spec (§4.1) and the stub's own comment: the
apply-predefined-position activate overwrites the axes with the values
of the currently selected position (NullLevel: height 80, rest 0;
BeachChair: height 80, trend 0, tilt 0, backplate 45); every other
activate adjusts its axis by a fixed step (±1 for height, ±0.1 for the
angles), clamped to the axis's declared range ("Keep the margins in
mind"; spec §7: out-of-range adjustments are clamped, not rejected). -/
def applyActivate (t : VirtualORTable) : ActivateOp → VirtualORTable
  | ActivateOp.heightUp => { t with height := clamp 60 140 (t.height + 1) }
  | ActivateOp.heightDown => { t with height := clamp 60 140 (t.height - 1) }
  | ActivateOp.trendUp => { t with trend := clamp (-45) 45 (t.trend + 0.1) }
  | ActivateOp.trendDown => { t with trend := clamp (-45) 45 (t.trend - 0.1) }
  | ActivateOp.tiltUp => { t with tilt := clamp (-25) 25 (t.tilt + 0.1) }
  | ActivateOp.tiltDown => { t with tilt := clamp (-25) 25 (t.tilt - 0.1) }
  | ActivateOp.backplateUp => { t with backplate := clamp (-40) 80 (t.backplate + 0.1) }
  | ActivateOp.backplateDown => { t with backplate := clamp (-40) 80 (t.backplate - 0.1) }
  | ActivateOp.applyPredefinedPosition =>
      match t.predefinedPosition with
      | PredefinedPosition.NullLevel =>
          { t with height := 80, trend := 0, tilt := 0, backplate := 0 }
      | PredefinedPosition.BeachChair =>
          { t with height := 80, trend := 0, tilt := 0, backplate := 45 }

/-- Which alarm band an axis value falls into: the per-axis branches of
`ValueUpdater::applyAlarms` take a "near upper limit" branch, a "near
lower limit" branch, or the no-alert branch. -/
inductive AlertBand
  | nearUpper
  | nearLower
  | noAlert
deriving DecidableEq

/-- Height branch conditions of `ValueUpdater::applyAlarms`
(main.cpp:288-299): `height >= 135 && height <= 140` else
`height <= 65 && height >= 60` else no alert. -/
def heightBand (v : ℚ) : AlertBand :=
  if 135 ≤ v ∧ v ≤ 140 then AlertBand.nearUpper
  else if v ≤ 65 ∧ 60 ≤ v then AlertBand.nearLower
  else AlertBand.noAlert

/-- Trend branch conditions of `ValueUpdater::applyAlarms`
(main.cpp:301-311): `trend >= 40 && trend <= 45` else
`trend <= -40 && trend >= -45` else no alert. -/
def trendBand (v : ℚ) : AlertBand :=
  if 40 ≤ v ∧ v ≤ 45 then AlertBand.nearUpper
  else if v ≤ -40 ∧ -45 ≤ v then AlertBand.nearLower
  else AlertBand.noAlert

/-- Tilt branch conditions of `ValueUpdater::applyAlarms`
(main.cpp:313-323): `tilt >= 20 && tilt <= 25` else
`tilt <= -20 && tilt >= -25` else no alert. -/
def tiltBand (v : ℚ) : AlertBand :=
  if 20 ≤ v ∧ v ≤ 25 then AlertBand.nearUpper
  else if v ≤ -20 ∧ -25 ≤ v then AlertBand.nearLower
  else AlertBand.noAlert

/-- Backplate branch conditions of `ValueUpdater::applyAlarms`
(main.cpp:325-335): `backplate >= 75 && backplate <= 80` else
`backplate <= -35 && backplate >= -40` else no alert. -/
def backplateBand (v : ℚ) : AlertBand :=
  if 75 ≤ v ∧ v ≤ 80 then AlertBand.nearUpper
  else if v ≤ -35 ∧ -40 ≤ v then AlertBand.nearLower
  else AlertBand.noAlert

/-- Modelled from the spec: the bodies of the `applyAlarms` branches are
`TODO` stubs (the alert publish itself is missing); per spec §4.2 the
evaluator reports alert presence exactly when one of the two band
branches is taken. -/
def alertPresence (band : AlertBand) : Prop := band ≠ AlertBand.noAlert

instance (b : AlertBand) : Decidable (alertPresence b) := by
  unfold alertPresence; infer_instance

/-- Result of `MDIBGateway::commit`: a success flag and (on failure) the
error text returned by `result.getError()`. -/
structure CommitResult where
  success : Bool
  error : String
deriving DecidableEq

/-- Observable events of one tick of the `ValueUpdater` background loop. -/
inductive TickEvent
  | makeUpdateAccess
  | updateMetricValues
  | evaluateAlarms
  | commit (success : Bool)
  | logFailure (msg : String)
deriving DecidableEq

/-- The console message printed when a commit fails (main.cpp:269 and
main.cpp:340): `"Update of values not successful: " + result.getError()`. -/
def commitFailureMessage (r : CommitResult) : String :=
  "Update of values not successful: " ++ r.error

/-- `ValueUpdater::applyChanges` (main.cpp:253-271): make an update
access, fill in the metric values (the filling itself is a `TODO` stub;
the `updateMetricValues` event marks that step), commit, and log the
returned error text when the commit is not successful.  There is no
retry and no exception: the function returns normally either way. -/
def applyChangesTrace (r : CommitResult) : List TickEvent :=
  [TickEvent.makeUpdateAccess, TickEvent.updateMetricValues, TickEvent.commit r.success]
    ++ (if r.success then [] else [TickEvent.logFailure (commitFailureMessage r)])

/-- `ValueUpdater::applyAlarms` (main.cpp:273-342): make an update
access, evaluate the per-axis band branches (the `evaluateAlarms`
event), commit, and log the returned error text when the commit is not
successful.  As in `applyChanges`, no retry and no exception. -/
def applyAlarmsTrace (r : CommitResult) : List TickEvent :=
  [TickEvent.makeUpdateAccess, TickEvent.evaluateAlarms, TickEvent.commit r.success]
    ++ (if r.success then [] else [TickEvent.logFailure (commitFailureMessage r)])

/-- One iteration of the `ValueUpdater::run` loop body (main.cpp:352-360):
`applyChanges(); applyAlarms();` in that order, each with its own
update access and commit.  `r1` is the commit result of the value
publish, `r2` that of the alarm publish. -/
def tickTrace (r1 r2 : CommitResult) : List TickEvent :=
  applyChangesTrace r1 ++ applyAlarmsTrace r2

/-- Number of `commit` events in a trace. -/
def commitCount (tr : List TickEvent) : Nat :=
  tr.countP (fun e => match e with | TickEvent.commit _ => true | _ => false)

/-- The sleep between loop iterations (main.cpp:359):
`std::this_thread::sleep_for(std::chrono::milliseconds(500))`. -/
def tickPeriodMs : Nat := 500

/-- The `while (m_running)` loop of `ValueUpdater::run`, run over a list
of per-tick commit-result pairs (one pair per iteration executed while
the running flag stays set).  Each iteration produces its tick trace;
no iteration's outcome influences whether the next one runs. -/
def runTicks (inputs : List (CommitResult × CommitResult)) : List (List TickEvent) :=
  inputs.map (fun p => tickTrace p.1 p.2)

/-- Invocation states of a set-operation transaction
(`UserInterfaces::Set` states used in the handlers' transition calls). -/
inductive InvocationState
  | Entry
  | Wait
  | Start
  | Fin
deriving DecidableEq

/-- Position of a state in the Entry→Wait→Start→Fin order. -/
def stateRank : InvocationState → Nat
  | InvocationState.Entry => 0
  | InvocationState.Wait => 1
  | InvocationState.Start => 2
  | InvocationState.Fin => 3

/-- A strict forward walk: consecutive states advance by exactly one
rank, so no state is skipped and none is revisited. -/
def strictSequence : List InvocationState → Bool
  | [] => true
  | [_] => true
  | a :: b :: rest => (stateRank b == stateRank a + 1) && strictSequence (b :: rest)

/-- The kinds of set operations the provider registers handlers for
(main.cpp:454-463). -/
inductive OperationKind
  | activate
  | setString
  | setContext
  | setAlert
deriving DecidableEq

/-- Transition targets called by
`ORTableSetContextStateHandler::onNewTransaction` (main.cpp:138-140):
`transitionFromEntryTo(Wait)`, `transitionFromWaitingTo(Start)`,
`transitionFromStartedTo(Fin)`. -/
def setContextScript : List InvocationState :=
  [InvocationState.Wait, InvocationState.Start, InvocationState.Fin]

/-- Transition targets called by
`ORTableSetAlertStateHandler::onNewTransaction` (main.cpp:160-162):
same three calls as the set-context handler. -/
def setAlertScript : List InvocationState :=
  [InvocationState.Wait, InvocationState.Start, InvocationState.Fin]

/-- Modelled from the spec: the body of
`ORTableActivateHandler::onNewTransaction` (main.cpp:101-121) is a
`TODO` stub; per spec §4.1 every operation drives its transaction
through Entry→Wait→Start→Fin in strict sequence. -/
def activateScript : List InvocationState :=
  [InvocationState.Wait, InvocationState.Start, InvocationState.Fin]

/-- Modelled from the spec: the body of
`ORTableSetStringHandler::onNewTransaction` (main.cpp:78-94) is a
`TODO` stub; per spec §4.1 every operation drives its transaction
through Entry→Wait→Start→Fin in strict sequence. -/
def setStringScript : List InvocationState :=
  [InvocationState.Wait, InvocationState.Start, InvocationState.Fin]

/-- Transition script of each registered handler. -/
def handlerScript : OperationKind → List InvocationState
  | OperationKind.activate => activateScript
  | OperationKind.setString => setStringScript
  | OperationKind.setContext => setContextScript
  | OperationKind.setAlert => setAlertScript

/-- The full trajectory of a transaction handled by a given handler:
it is created in `Entry` and then follows the handler's transition
calls. -/
def handlerTrajectory (k : OperationKind) : List InvocationState :=
  InvocationState.Entry :: handlerScript k

/-- Modelled from the spec: the body of
`ORTableSetStringHandler::onNewTransaction` (main.cpp:78-94) is a
`TODO` stub; per spec §4.1 the handler parses the request value into the
`PredefinedPosition` enum, failing when the string names no enumerator. -/
def parsePredefinedPosition (s : String) : Option PredefinedPosition :=
  if s = "NullLevel" then some PredefinedPosition.NullLevel
  else if s = "BeachChair" then some PredefinedPosition.BeachChair
  else none

/-- Outcome reported back for a set-string request. -/
inductive SetStringOutcome
  | finished
  | invalidValue
deriving DecidableEq

/-- Modelled from the spec: the body of
`ORTableSetStringHandler::onNewTransaction` (main.cpp:78-94) is a
`TODO` stub; per spec §4.1 and §7, a value string that parses sets
`virtualTable.predefinedPosition` accordingly and finishes, and an
unrecognized value fails with `InvalidValue` leaving the table
unmodified. -/
def applySetString (t : VirtualORTable) (value : String) :
    SetStringOutcome × VirtualORTable :=
  match parsePredefinedPosition value with
  | some p => (SetStringOutcome.finished, { t with predefinedPosition := p })
  | none => (SetStringOutcome.invalidValue, t)

/-- An inbound set request as delivered to the provider: either one of
the four operations a handler is registered for, or a request whose
operation identifier matches no registered operation. -/
inductive Request
  | activate (op : ActivateOp)
  | setString (value : String)
  | setContext
  | setAlert
  | unknown (id : String)
deriving DecidableEq

/-- Terminal outcome of dispatching a request. -/
inductive DispatchOutcome
  | completed
  | invalidValue
  | unsupported
deriving DecidableEq

/-- Result of a dispatch: the reported outcome, the virtual table after
the call, and the transition targets the transaction went through
(empty when the transaction was never started). -/
structure DispatchResult where
  outcome : DispatchOutcome
  table : VirtualORTable
  transitions : List InvocationState
deriving DecidableEq

/-- Modelled from the spec: the operation dispatch itself lives in the
external sdcX stack (only the handler registrations, main.cpp:454-463,
and the unused `DenyAllExternalControlHandler` include, main.cpp:34,
are in this repository).  Per spec §4.1 and §7, a recognized identifier
is routed to its registered handler, while an unrecognized identifier
is denied by default: rejected with an "unsupported operation" outcome,
its transaction never started, and the virtual table untouched. -/
def dispatch (t : VirtualORTable) : Request → DispatchResult
  | Request.activate op =>
      { outcome := DispatchOutcome.completed,
        table := applyActivate t op,
        transitions := activateScript }
  | Request.setString v =>
      match applySetString t v with
      | (SetStringOutcome.finished, t2) =>
          { outcome := DispatchOutcome.completed, table := t2,
            transitions := setStringScript }
      | (SetStringOutcome.invalidValue, t2) =>
          { outcome := DispatchOutcome.invalidValue, table := t2,
            transitions := [] }
  | Request.setContext =>
      { outcome := DispatchOutcome.completed, table := t,
        transitions := setContextScript }
  | Request.setAlert =>
      { outcome := DispatchOutcome.completed, table := t,
        transitions := setAlertScript }
  | Request.unknown _ =>
      { outcome := DispatchOutcome.unsupported, table := t,
        transitions := [] }

/-- Lifecycle state of a `ValueUpdater` (main.cpp:231-363):
`running` is `std::atomic<bool> m_running{true}`; `threadJoinable`
says whether `m_thread` refers to a thread of execution (false for the
default-constructed member, true once `run()` assigned it);
`threadFinished` says whether that thread of execution has returned. -/
structure ValueUpdater where
  running : Bool
  threadJoinable : Bool
  threadFinished : Bool
deriving DecidableEq

/-- A freshly constructed `ValueUpdater` (main.cpp:241-244): the running
flag starts `true` and `m_thread` is default-constructed, hence not
joinable. -/
def ValueUpdater.init : ValueUpdater :=
  { running := true, threadJoinable := false, threadFinished := false }

/-- The loop guard of the background thread (main.cpp:353):
`while (m_running)`. -/
def ValueUpdater.loopContinues (u : ValueUpdater) : Bool := u.running

/-- `ValueUpdater::run` (main.cpp:350-362): assigns `m_thread` a new
thread of execution running the update loop; the member becomes
joinable. -/
def ValueUpdater.run (u : ValueUpdater) : ValueUpdater :=
  { u with threadJoinable := true }

/-- `ValueUpdater::stop` (main.cpp:344-348): sets `m_running = false`
and then unconditionally calls `m_thread.join()`.  `join` on a
non-joinable thread (one on which `run()` never installed a thread of
execution) throws `std::system_error`, modelled as the error case.
When the thread is joinable, `join` returns only after the thread
function has returned — which it does, because the loop guard
`while (m_running)` now reads `false` — so on success the thread has
finished before `stop` returns. -/
def ValueUpdater.stop (u : ValueUpdater) : Except String ValueUpdater :=
  let u2 := { u with running := false }
  if u2.threadJoinable then
    Except.ok { u2 with threadJoinable := false, threadFinished := true }
  else
    Except.error "std::system_error: thread::join on a non-joinable thread"

/-- `ValueUpdater::~ValueUpdater` (main.cpp:245-251): calls `stop()`
exactly when the running flag is still set. -/
def ValueUpdater.destruct (u : ValueUpdater) : Except String Unit :=
  if u.running then (u.stop).map (fun _ => ()) else Except.ok ()

/-! ### Theorems -/

lemma clamp_mem (lo hi x : ℚ) (h : lo ≤ hi) :
    lo ≤ clamp lo hi x ∧ clamp lo hi x ≤ hi := by
  unfold clamp
  exact ⟨le_max_left lo _, max_le h (min_le_left hi x)⟩

lemma applyActivate_inRange (t : VirtualORTable) (h : tableInRange t)
    (op : ActivateOp) : tableInRange (applyActivate t op) := by
  obtain ⟨h1, h2, h3, h4, h5, h6, h7, h8⟩ := h
  cases op with
  | heightUp =>
      exact ⟨(clamp_mem 60 140 _ (by norm_num)).1,
        (clamp_mem 60 140 _ (by norm_num)).2, h3, h4, h5, h6, h7, h8⟩
  | heightDown =>
      exact ⟨(clamp_mem 60 140 _ (by norm_num)).1,
        (clamp_mem 60 140 _ (by norm_num)).2, h3, h4, h5, h6, h7, h8⟩
  | trendUp =>
      exact ⟨h1, h2, (clamp_mem (-45) 45 _ (by norm_num)).1,
        (clamp_mem (-45) 45 _ (by norm_num)).2, h5, h6, h7, h8⟩
  | trendDown =>
      exact ⟨h1, h2, (clamp_mem (-45) 45 _ (by norm_num)).1,
        (clamp_mem (-45) 45 _ (by norm_num)).2, h5, h6, h7, h8⟩
  | tiltUp =>
      exact ⟨h1, h2, h3, h4, (clamp_mem (-25) 25 _ (by norm_num)).1,
        (clamp_mem (-25) 25 _ (by norm_num)).2, h7, h8⟩
  | tiltDown =>
      exact ⟨h1, h2, h3, h4, (clamp_mem (-25) 25 _ (by norm_num)).1,
        (clamp_mem (-25) 25 _ (by norm_num)).2, h7, h8⟩
  | backplateUp =>
      exact ⟨h1, h2, h3, h4, h5, h6, (clamp_mem (-40) 80 _ (by norm_num)).1,
        (clamp_mem (-40) 80 _ (by norm_num)).2⟩
  | backplateDown =>
      exact ⟨h1, h2, h3, h4, h5, h6, (clamp_mem (-40) 80 _ (by norm_num)).1,
        (clamp_mem (-40) 80 _ (by norm_num)).2⟩
  | applyPredefinedPosition =>
      cases hp : t.predefinedPosition <;>
        simp only [applyActivate, hp] <;>
        exact ⟨by norm_num, by norm_num, by norm_num, by norm_num,
          by norm_num, by norm_num, by norm_num, by norm_num⟩

/-- C1: for every valid activate operation, repeated application of the
activate handler never drives any axis of the virtual table outside its
declared closed range (height in [60,140], trend in [-45,45], tilt in
[-25,25], backplate in [-40,80]); each adjusting write clamps to the
range (definition `applyActivate`). -/
theorem activate_preserves_ranges (t : VirtualORTable) (h : tableInRange t)
    (ops : List ActivateOp) : tableInRange (ops.foldl applyActivate t) := by
  induction ops generalizing t with
  | nil => exact h
  | cons op rest ih => exact ih _ (applyActivate_inRange t h op)

/-- Witness for C1: the initial table is in range and stays in range
under a concrete sequence of activates. -/
theorem activate_preserves_ranges_witness :
    tableInRange virtualTable
    ∧ tableInRange
        ([ActivateOp.heightUp, ActivateOp.trendUp,
          ActivateOp.applyPredefinedPosition].foldl applyActivate virtualTable) :=
  ⟨by norm_num [virtualTable, tableInRange],
   activate_preserves_ranges virtualTable (by norm_num [virtualTable, tableInRange]) _⟩

/-- C2: for every prior state, the apply-predefined-position activate
overwrites all four axes with the values of the currently selected
predefined position: NullLevel gives height 80, trend 0, tilt 0,
backplate 0; BeachChair gives height 80, trend 0, tilt 0, backplate 45. -/
theorem apply_predefined_position_overwrites (t : VirtualORTable) :
    applyActivate t ActivateOp.applyPredefinedPosition =
      match t.predefinedPosition with
      | PredefinedPosition.NullLevel =>
          { height := 80, trend := 0, tilt := 0, backplate := 0,
            predefinedPosition := PredefinedPosition.NullLevel }
      | PredefinedPosition.BeachChair =>
          { height := 80, trend := 0, tilt := 0, backplate := 45,
            predefinedPosition := PredefinedPosition.BeachChair } := by
  cases t with
  | mk h tr ti b p => cases p <;> rfl

/-- C3: for each axis, the per-tick threshold evaluation reports alert
presence exactly when the value lies within 5 units of the axis's upper
bound or within 5 units of its lower bound (both inclusive), for values
inside the axis's declared range. -/
theorem alert_presence_iff_near_limit (h tr ti b : ℚ)
    (hh1 : 60 ≤ h) (hh2 : h ≤ 140)
    (htr1 : -45 ≤ tr) (htr2 : tr ≤ 45)
    (hti1 : -25 ≤ ti) (hti2 : ti ≤ 25)
    (hb1 : -40 ≤ b) (hb2 : b ≤ 80) :
    (alertPresence (heightBand h) ↔ (140 - h ≤ 5 ∨ h - 60 ≤ 5))
    ∧ (alertPresence (trendBand tr) ↔ (45 - tr ≤ 5 ∨ tr - (-45) ≤ 5))
    ∧ (alertPresence (tiltBand ti) ↔ (25 - ti ≤ 5 ∨ ti - (-25) ≤ 5))
    ∧ (alertPresence (backplateBand b) ↔ (80 - b ≤ 5 ∨ b - (-40) ≤ 5)) := by
  refine ⟨?_, ?_, ?_, ?_⟩
  · unfold heightBand
    split_ifs with c1 c2
    · exact iff_of_true (by decide) (Or.inl (by linarith [c1.1]))
    · exact iff_of_true (by decide) (Or.inr (by linarith [c2.1]))
    · refine iff_of_false (by decide) ?_
      rintro (hc | hc)
      · exact c1 ⟨by linarith, hh2⟩
      · exact c2 ⟨by linarith, hh1⟩
  · unfold trendBand
    split_ifs with c1 c2
    · exact iff_of_true (by decide) (Or.inl (by linarith [c1.1]))
    · exact iff_of_true (by decide) (Or.inr (by linarith [c2.1]))
    · refine iff_of_false (by decide) ?_
      rintro (hc | hc)
      · exact c1 ⟨by linarith, htr2⟩
      · exact c2 ⟨by linarith, htr1⟩
  · unfold tiltBand
    split_ifs with c1 c2
    · exact iff_of_true (by decide) (Or.inl (by linarith [c1.1]))
    · exact iff_of_true (by decide) (Or.inr (by linarith [c2.1]))
    · refine iff_of_false (by decide) ?_
      rintro (hc | hc)
      · exact c1 ⟨by linarith, hti2⟩
      · exact c2 ⟨by linarith, hti1⟩
  · unfold backplateBand
    split_ifs with c1 c2
    · exact iff_of_true (by decide) (Or.inl (by linarith [c1.1]))
    · exact iff_of_true (by decide) (Or.inr (by linarith [c2.1]))
    · refine iff_of_false (by decide) ?_
      rintro (hc | hc)
      · exact c1 ⟨by linarith, hb2⟩
      · exact c2 ⟨by linarith, hb1⟩

/-- Witness for C3: height 136 gives presence (it is within 5 of the
upper bound 140), and height 100 gives no presence. -/
theorem alert_presence_iff_near_limit_witness :
    alertPresence (heightBand 136) ∧ ¬ alertPresence (heightBand 100) :=
  ⟨((alert_presence_iff_near_limit 136 0 0 0 (by norm_num) (by norm_num)
      (by norm_num) (by norm_num) (by norm_num) (by norm_num)
      (by norm_num) (by norm_num)).1).mpr (Or.inl (by norm_num)),
   by decide⟩

/-- Counterexample for C4: a tick does not run under a single update
transaction — even with both commits succeeding, its trace contains two
commits (one in `applyChanges`, one in `applyAlarms`), not one. -/
theorem tick_not_single_transaction :
    ¬ commitCount (tickTrace ⟨true, ""⟩ ⟨true, ""⟩) = 1 := by decide

/-- C4 (amended): every tick performs exactly two sequential actions —
first the value publish of `applyChanges`, then the alarm evaluation
and publish of `applyAlarms` — each under its own update transaction
(two commits per tick); each commit that returns non-success has its
error text logged, with no partial-publish retry. -/
theorem tick_two_transactions (r1 r2 : CommitResult) :
    tickTrace r1 r2 = applyChangesTrace r1 ++ applyAlarmsTrace r2
    ∧ commitCount (tickTrace r1 r2) = 2
    ∧ TickEvent.updateMetricValues ∈ applyChangesTrace r1
    ∧ TickEvent.evaluateAlarms ∈ applyAlarmsTrace r2
    ∧ TickEvent.evaluateAlarms ∉ applyChangesTrace r1
    ∧ TickEvent.updateMetricValues ∉ applyAlarmsTrace r2
    ∧ (r1.success = false →
        TickEvent.logFailure (commitFailureMessage r1) ∈ tickTrace r1 r2)
    ∧ (r2.success = false →
        TickEvent.logFailure (commitFailureMessage r2) ∈ tickTrace r1 r2) := by
  refine ⟨rfl, ?_, ?_, ?_, ?_, ?_, ?_, ?_⟩
  · simp only [commitCount, tickTrace, applyChangesTrace, applyAlarmsTrace]
    cases r1.success <;> cases r2.success <;> simp
  · simp [applyChangesTrace]
  · simp [applyAlarmsTrace]
  · simp only [applyChangesTrace]
    cases r1.success <;> simp
  · simp only [applyAlarmsTrace]
    cases r2.success <;> simp
  · intro hf
    simp [tickTrace, applyChangesTrace, hf]
  · intro hf
    simp [tickTrace, applyAlarmsTrace, hf]

/-- Witness for C4 (amended): with a failing first commit, the logged
error text appears in the tick's trace. -/
theorem tick_two_transactions_witness :
    TickEvent.logFailure (commitFailureMessage ⟨false, "boom"⟩)
      ∈ tickTrace ⟨false, "boom"⟩ ⟨true, ""⟩ :=
  (tick_two_transactions ⟨false, "boom"⟩ ⟨true, ""⟩).2.2.2.2.2.2.1 rfl

/-- C5: a commit returning non-success has its returned error text
logged, the tick completes normally (both commits still happen, no
retry), the loop processes every subsequent tick regardless of
failures (no fatal abort), and the inter-tick sleep is 500 ms. -/
theorem failed_commit_logged_next_tick_runs
    (inputs : List (CommitResult × CommitResult)) (r1 r2 : CommitResult) :
    (r1.success = false →
      TickEvent.logFailure ("Update of values not successful: " ++ r1.error)
        ∈ tickTrace r1 r2)
    ∧ (r2.success = false →
      TickEvent.logFailure ("Update of values not successful: " ++ r2.error)
        ∈ tickTrace r1 r2)
    ∧ commitCount (tickTrace r1 r2) = 2
    ∧ (runTicks inputs).length = inputs.length
    ∧ tickPeriodMs = 500 := by
  refine ⟨?_, ?_, ?_, ?_, rfl⟩
  · intro hf
    simp [tickTrace, applyChangesTrace, commitFailureMessage, hf]
  · intro hf
    simp [tickTrace, applyAlarmsTrace, commitFailureMessage, hf]
  · simp only [commitCount, tickTrace, applyChangesTrace, applyAlarmsTrace]
    cases r1.success <;> cases r2.success <;> simp
  · simp [runTicks]

/-- Witness for C5: a tick whose alarm commit fails with error "err"
logs the message, and a two-tick schedule with a failing first tick
still runs both ticks. -/
theorem failed_commit_logged_next_tick_runs_witness :
    TickEvent.logFailure ("Update of values not successful: " ++ "err")
      ∈ tickTrace ⟨true, ""⟩ ⟨false, "err"⟩
    ∧ (runTicks [(⟨false, "err"⟩, ⟨false, "err2"⟩), (⟨true, ""⟩, ⟨true, ""⟩)]).length
        = 2 :=
  ⟨(failed_commit_logged_next_tick_runs [] ⟨true, ""⟩ ⟨false, "err"⟩).2.1 rfl,
   (failed_commit_logged_next_tick_runs
      [(⟨false, "err"⟩, ⟨false, "err2"⟩), (⟨true, ""⟩, ⟨true, ""⟩)]
      ⟨true, ""⟩ ⟨true, ""⟩).2.2.2.1⟩

/-- C6: every dispatched operation kind (activate, set-string,
set-context, set-alert) drives its transaction through the states
Entry, Wait, Start, Fin in strict sequence: the trajectory is exactly
[Entry, Wait, Start, Fin] and each step advances the state rank by
exactly one (no skip, no regression). -/
theorem transaction_strict_sequence (k : OperationKind) :
    handlerTrajectory k
      = [InvocationState.Entry, InvocationState.Wait,
         InvocationState.Start, InvocationState.Fin]
    ∧ strictSequence (handlerTrajectory k) = true := by
  cases k <;> exact ⟨rfl, rfl⟩

/-- C7: a set-string value that does not parse into the
predefined-position enum is rejected with the invalid-value outcome and
leaves the table unmodified; a value that parses sets the
predefined-position field accordingly. -/
theorem set_string_parse_or_reject (t : VirtualORTable) (s : String) :
    (parsePredefinedPosition s = none →
      applySetString t s = (SetStringOutcome.invalidValue, t))
    ∧ (∀ p : PredefinedPosition, parsePredefinedPosition s = some p →
      applySetString t s
        = (SetStringOutcome.finished, { t with predefinedPosition := p })) := by
  constructor
  · intro hp
    simp [applySetString, hp]
  · intro p hp
    simp [applySetString, hp]

/-- Witness for C7: an unrecognized value string leaves the initial
table unchanged with the invalid-value outcome; the string "BeachChair"
parses and sets the field. -/
theorem set_string_parse_or_reject_witness :
    applySetString virtualTable "Garbage"
      = (SetStringOutcome.invalidValue, virtualTable)
    ∧ applySetString virtualTable "BeachChair"
      = (SetStringOutcome.finished,
         { virtualTable with predefinedPosition := PredefinedPosition.BeachChair }) :=
  ⟨(set_string_parse_or_reject virtualTable "Garbage").1 (by decide),
   (set_string_parse_or_reject virtualTable "BeachChair").2
     PredefinedPosition.BeachChair (by decide)⟩

/-- C8: dispatching an unrecognized operation identifier yields the
explicit unsupported-operation outcome (not a silent no-op), leaves the
virtual table exactly as it was, and never starts the transaction: the
transaction sees no state beyond Entry. -/
theorem unknown_identifier_rejected_unchanged (t : VirtualORTable) (id : String) :
    (dispatch t (Request.unknown id)).outcome = DispatchOutcome.unsupported
    ∧ (dispatch t (Request.unknown id)).table = t
    ∧ (dispatch t (Request.unknown id)).transitions = []
    ∧ InvocationState.Start
        ∉ InvocationState.Entry :: (dispatch t (Request.unknown id)).transitions
    ∧ InvocationState.Fin
        ∉ InvocationState.Entry :: (dispatch t (Request.unknown id)).transitions := by
  refine ⟨rfl, rfl, rfl, ?_, ?_⟩ <;> simp [dispatch]

/-- C9: `stop` clears the running flag and unconditionally joins; the
destructor invokes `stop` whenever the flag is still set (its default).
On a `ValueUpdater` whose `run` was never called, `stop` — and hence
destruction — joins a default-constructed, non-joinable thread, an
error; after `run` followed by `stop`, the background thread has
finished before `stop` returns. -/
theorem stop_join_lifecycle :
    ValueUpdater.init.stop
      = Except.error "std::system_error: thread::join on a non-joinable thread"
    ∧ ValueUpdater.init.running = true
    ∧ ValueUpdater.init.destruct
      = Except.error "std::system_error: thread::join on a non-joinable thread"
    ∧ ValueUpdater.init.run.stop
      = Except.ok { running := false, threadJoinable := false, threadFinished := true }
    ∧ (∀ u u2 : ValueUpdater, u.stop = Except.ok u2 →
        u2.running = false ∧ u2.threadFinished = true
          ∧ ValueUpdater.loopContinues u2 = false) := by
  refine ⟨rfl, rfl, rfl, rfl, ?_⟩
  intro u u2 hok
  simp only [ValueUpdater.stop] at hok
  by_cases hj : u.threadJoinable
  · simp only [hj, if_true] at hok
    cases hok
    exact ⟨rfl, rfl, rfl⟩
  · simp [hj] at hok

/-- Witness for C9: applying the lifecycle theorem to the run-then-stop
scenario shows the stopped updater's flag is cleared and its thread has
finished. -/
theorem stop_join_lifecycle_witness :
    ValueUpdater.running
        { running := false, threadJoinable := false, threadFinished := true } = false
    ∧ ValueUpdater.threadFinished
        { running := false, threadJoinable := false, threadFinished := true } = true :=
  ⟨(stop_join_lifecycle.2.2.2.2 ValueUpdater.init.run _ stop_join_lifecycle.2.2.2.1).1,
   (stop_join_lifecycle.2.2.2.2 ValueUpdater.init.run _ stop_join_lifecycle.2.2.2.1).2.1⟩

/-- C10: in the global virtual table, only height (80) and trend (39.8)
carry explicit initial values; zero-initialization of the global gives
tilt 0, backplate 0 and the first enumerator for the predefined
position, and the first tick's threshold comparisons for tilt and
backplate therefore operate on 0, taking the no-alert branch. -/
theorem global_table_default_initialization :
    virtualTable.height = 80 ∧ virtualTable.trend = 39.8
    ∧ virtualTable.tilt = 0 ∧ virtualTable.backplate = 0
    ∧ virtualTable.predefinedPosition = PredefinedPosition.NullLevel
    ∧ tiltBand virtualTable.tilt = AlertBand.noAlert
    ∧ backplateBand virtualTable.backplate = AlertBand.noAlert := by
  refine ⟨rfl, rfl, rfl, rfl, rfl, ?_, ?_⟩ <;> decide

end ORTable
